import Mathlib

/-!
Verification of the EcoCompute storage layer (`server/storage.ts`) and the
route handlers that call it (`server/routes.ts`), as a shallow embedding.

Modelling conventions:
- Each PostgreSQL table is a `List` of rows inside a `DB` record; an SQL
  `INSERT` appends at the end of the list, a `SELECT ... WHERE` is a
  `List.filter`, an `UPDATE ... WHERE` is a `List.map` that rewrites the
  matching rows, a `DELETE ... WHERE` is a `List.filter` with the negated
  predicate.  A `SELECT` without `ORDER BY` returns rows in list order.
- `decimal(8,2)` / `decimal(10,2)` columns are represented as `Int` values
  scaled by 100 (exact, order-preserving).  `timestamp` columns are `Nat`.
- Column defaults that the database fills in (`gen_random_uuid()`,
  `defaultNow()`) are passed to each write operation as explicit arguments.
- SQL `ILIKE` is pattern matching with `%` (any run) and `_` (any single
  character) wildcards after lower-casing both sides; the `ESCAPE`
  character is not modelled, so theorems about needles injected into a
  `%...%` pattern assume the needle is free of `%`, `_` and backslash.
- `ORDER BY eco_score DESC` follows the PostgreSQL default null ordering:
  for a descending sort, SQL `NULL` sorts as if larger than every non-null
  value, i.e. rows with a null `eco_score` come first.
-/

namespace Eco

/-! ### SQL LIKE / ILIKE pattern matching -/

/-- SQL `LIKE` matching of a pattern (first argument) against a string
(second argument), both as character lists: `%` matches any run of
characters, `_` matches exactly one character, anything else matches
itself.  `ESCAPE` processing is not modelled. -/
def likeMatch : List Char → List Char → Bool
  | [], s => s.isEmpty
  | p :: ps, s =>
    if p = '%' then
      s.tails.any (fun t => likeMatch ps t)
    else
      match s with
      | [] => false
      | c :: s2 => (p = '_' || p = c) && likeMatch ps s2

/-- Does the second list start with the first one? -/
def startsWithChars : List Char → List Char → Bool
  | [], _ => true
  | _ :: _, [] => false
  | c :: cs, d :: ds => (c = d) && startsWithChars cs ds

/-- Does the second list contain the first one as a contiguous run, i.e.
does some suffix of the haystack start with the needle? -/
def containsChars (needle s : List Char) : Bool :=
  s.tails.any (startsWithChars needle)

/-- The characters of a string, each lower-cased (`ILIKE` lower-cases both
its operands). -/
def lowerChars (s : String) : List Char := s.data.map Char.toLower

/-- The pattern `"%" ++ q ++ "%"` that `storage.ts` interpolates around a
query/needle before handing it to `ilike`. -/
def likePat (q : String) : String := "%" ++ q ++ "%"

/-- Case-insensitive SQL `ILIKE`: `sqlIlike s pat` is `s ILIKE pat`. -/
def sqlIlike (s pat : String) : Bool := likeMatch (lowerChars pat) (lowerChars s)

/-- `ILIKE` applied to a nullable column: SQL `NULL ILIKE pat` is `NULL`,
which a `WHERE` clause treats as false. -/
def sqlIlikeOpt (s : Option String) (pat : String) : Bool :=
  match s with
  | none => false
  | some v => sqlIlike v pat

/-- SQL `=` applied to a nullable text column and a non-null constant:
`NULL = x` is `NULL`, treated as false by `WHERE`. -/
def sqlEqOpt (s : Option String) (v : String) : Bool :=
  match s with
  | none => false
  | some t => t = v

/-- Case-insensitive substring containment (the effect of
`ILIKE '%needle%'` when the needle has no wildcard characters). -/
def containsCI (s needle : String) : Bool := containsChars (lowerChars needle) (lowerChars s)

/-- Case-sensitive substring containment (used to state claims that speak
of plain "contains as a substring"). -/
def containsSub (s needle : String) : Bool := containsChars needle.data s.data

/-- The (lower-cased) needle is free of the SQL LIKE metacharacters `%` and
`_` and of the default escape character backslash, so that interpolating it
into a `%...%` pattern means plain substring containment. -/
def NoWild (q : String) : Prop :=
  ∀ c ∈ lowerChars q, c ≠ '%' ∧ c ≠ '_' ∧ c ≠ '\\'

instance (q : String) : Decidable (NoWild q) := by
  unfold NoWild; infer_instance

/-! ### Data model (`shared/schema.ts`) -/

/-- A row of the `users` table. -/
structure User where
  id : String
  name : String
  email : String
  password : String
  age : Int
  gender : String
  createdAt : Option Nat
deriving DecidableEq

/-- A row of the `products` table. -/
structure Product where
  id : String
  productId : Option String
  title : String
  text : Option String
  ecoScore : Option Int
  ageTarget : Option String
  genderTarget : Option String
  category : Option String
  price : Option Int
  imageUrl : Option String
deriving DecidableEq

/-- A row of the `cart` table. -/
structure CartRow where
  id : String
  userId : String
  productId : String
  quantity : Int
  addedAt : Option Nat
deriving DecidableEq

/-- A row of the `wishlist` table. -/
structure WishlistRow where
  id : String
  userId : String
  productId : String
  addedAt : Option Nat
deriving DecidableEq

/-- A row of the `viewed_products` table. -/
structure ViewedRow where
  id : String
  userId : String
  productId : String
  viewedAt : Option Nat
deriving DecidableEq

/-- The persistent state: the five relations of the schema. -/
structure DB where
  users : List User
  products : List Product
  cart : List CartRow
  wishlist : List WishlistRow
  viewedProducts : List ViewedRow
deriving DecidableEq

/-- `InsertCart` (`insertCartSchema`): the body of an add-to-cart request;
`quantity` is optional (the column defaults to 1). -/
structure InsertCart where
  userId : String
  productId : String
  quantity : Option Int
deriving DecidableEq

/-- `InsertWishlist` (`insertWishlistSchema`). -/
structure InsertWishlist where
  userId : String
  productId : String
deriving DecidableEq

/-! ### Catalog query layer (`DatabaseStorage` read methods) -/

/-- The category filter: `if (category && category !== "all")` — JavaScript
truthiness makes an absent or empty category, and the sentinel `"all"`,
mean "no filter"; otherwise SQL `category = c` (false on a null column). -/
def catPred (category : Option String) (p : Product) : Bool :=
  match category with
  | none => true
  | some c => if c = "" ∨ c = "all" then true else sqlEqOpt p.category c

/-- `ecoKeyGe x y`: the sort key `x` may come before the sort key `y`
under `ORDER BY ... DESC` on PostgreSQL — SQL `NULL` sorts as if larger
than every value (`NULLS FIRST` is the default for `DESC`), and non-null
values sort in descending order. -/
def ecoKeyGe (x y : Option Int) : Bool :=
  match x, y with
  | none, _ => true
  | some _, none => false
  | some u, some v => decide (v ≤ u)

/-- The row comparator realised by `ORDER BY eco_score DESC`. -/
def ecoBefore (a b : Product) : Bool :=
  ecoKeyGe a.ecoScore b.ecoScore

/-- Insert one product into a list already sorted by `ecoBefore`. -/
def insertEco (a : Product) : List Product → List Product
  | [] => [a]
  | b :: l => if ecoBefore a b then a :: b :: l else b :: insertEco a l

/-- Deterministic realisation of `ORDER BY eco_score DESC` (insertion
sort by `ecoBefore`). -/
def sortEco : List Product → List Product
  | [] => []
  | a :: l => insertEco a (sortEco l)

/-- `getProducts(limit = 20, offset = 0, category?)`: optional category
filter, then `ORDER BY eco_score DESC`, then `OFFSET`/`LIMIT`. -/
def getProducts (limit offset : Nat) (category : Option String) (db : DB) : List Product :=
  List.take limit (List.drop offset (sortEco (db.products.filter (catPred category))))

/-- The `WHERE` clause of `searchProducts`: `title ILIKE '%q%' OR
text ILIKE '%q%'`, conjoined with the category filter. -/
def searchCond (query : String) (category : Option String) (p : Product) : Bool :=
  (sqlIlike p.title (likePat query) || sqlIlikeOpt p.text (likePat query)) && catPred category p

/-- `searchProducts(query, limit = 20, offset = 0, category?)`. -/
def searchProducts (query : String) (limit offset : Nat) (category : Option String)
    (db : DB) : List Product :=
  List.take limit (List.drop offset (sortEco (db.products.filter (searchCond query category))))

/-- The age bucket computed by `getRecommendedProducts`:
`age < 25 ? "18-24" : age < 35 ? "25-34" : age < 45 ? "35-44" :
age < 55 ? "45-54" : "55+"`. -/
def ageGroupOf (age : Int) : String :=
  if age < 25 then "18-24"
  else if age < 35 then "25-34"
  else if age < 45 then "35-44"
  else if age < 55 then "45-54"
  else "55+"

/-- The age dimension of the recommendation `WHERE` clause:
`age_target = bucket OR age_target ILIKE '%bucket%' OR age_target IS NULL`. -/
def ageDimCond (bucket : String) (p : Product) : Bool :=
  sqlEqOpt p.ageTarget bucket || sqlIlikeOpt p.ageTarget (likePat bucket) || p.ageTarget.isNone

/-- The gender dimension of the recommendation `WHERE` clause:
`gender_target = g OR gender_target ILIKE '%g%' OR gender_target IS NULL`. -/
def genderDimCond (gender : String) (p : Product) : Bool :=
  sqlEqOpt p.genderTarget gender || sqlIlikeOpt p.genderTarget (likePat gender)
    || p.genderTarget.isNone

/-- `getRecommendedProducts(age, gender, limit = 20)`: both dimensions must
match (`AND` of two `OR`s), ordered by `eco_score DESC`, then `LIMIT`
(this query has no offset). -/
def getRecommendedProducts (age : Int) (gender : String) (limit : Nat) (db : DB) : List Product :=
  List.take limit
    (sortEco (db.products.filter
      (fun p => ageDimCond (ageGroupOf age) p && genderDimCond gender p)))

/-- The `GET /api/products/recommendations` handler (`routes.ts`): look the
session user up by id, answer 404 (`none`) if absent, otherwise call
`getRecommendedProducts(user.age, user.gender, limit)`. -/
def recommendationsRoute (userId : String) (limit : Nat) (db : DB) : Option (List Product) :=
  match db.users.find? (fun u => u.id == userId) with
  | none => none
  | some u => some (getRecommendedProducts u.age u.gender limit db)

/-! ### Activity ledger (`DatabaseStorage` write methods) -/

/-- The cart rows for one `(userId, productId)` pair, in table order. -/
def cartRowsFor (u p : String) (db : DB) : List CartRow :=
  db.cart.filter (fun r => r.userId == u && r.productId == p)

/-- The wishlist rows for one `(userId, productId)` pair. -/
def wishRowsFor (u p : String) (db : DB) : List WishlistRow :=
  db.wishlist.filter (fun r => r.userId == u && r.productId == p)

/-- The view-history rows for one `(userId, productId)` pair. -/
def viewedRowsFor (u p : String) (db : DB) : List ViewedRow :=
  db.viewedProducts.filter (fun r => r.userId == u && r.productId == p)

/-- The increment applied on the update path of `addToCart`:
`cartItem.quantity || 1` — JavaScript `||` yields 1 when `quantity` is
absent **or equal to 0** (0 is falsy). -/
def jsOrOne (q : Option Int) : Int :=
  match q with
  | none => 1
  | some v => if v = 0 then 1 else v

/-- `addToCart(cartItem)`: select the existing rows for the pair; if some
exist, update every row of the pair to `existing[0].quantity +
(cartItem.quantity || 1)` and return the first updated row; otherwise
insert a new row (quantity defaulted to 1 when absent — an explicit 0 is
inserted as 0).  `newId`/`now` stand for the database-side column
defaults. -/
def addToCart (item : InsertCart) (newId : String) (now : Nat) (db : DB) : CartRow × DB :=
  match cartRowsFor item.userId item.productId db with
  | [] =>
    let newRow : CartRow :=
      { id := newId, userId := item.userId, productId := item.productId
        quantity := item.quantity.getD 1, addedAt := some now }
    (newRow, { db with cart := db.cart ++ [newRow] })
  | e :: _ =>
    let newQty := e.quantity + jsOrOne item.quantity
    ({ e with quantity := newQty },
     { db with cart := db.cart.map (fun r =>
        if r.userId == item.userId && r.productId == item.productId
        then { r with quantity := newQty } else r) })

/-- `removeFromCart(userId, productId)`: delete every row of the pair. -/
def removeFromCart (u p : String) (db : DB) : DB :=
  { db with cart := db.cart.filter (fun r => !(r.userId == u && r.productId == p)) }

/-- `updateCartQuantity(userId, productId, quantity)`: `quantity <= 0`
delegates to `removeFromCart`, otherwise overwrite the quantity of every
row of the pair. -/
def updateCartQuantity (u p : String) (q : Int) (db : DB) : DB :=
  if q ≤ 0 then removeFromCart u p db
  else
    { db with cart := db.cart.map (fun r =>
        if r.userId == u && r.productId == p then { r with quantity := q } else r) }

/-- `addToWishlist(wishlistItem)`: return the first existing row of the
pair unchanged if one exists, otherwise insert a fresh row. -/
def addToWishlist (item : InsertWishlist) (newId : String) (now : Nat)
    (db : DB) : WishlistRow × DB :=
  match wishRowsFor item.userId item.productId db with
  | e :: _ => (e, db)
  | [] =>
    let newRow : WishlistRow :=
      { id := newId, userId := item.userId, productId := item.productId, addedAt := some now }
    (newRow, { db with wishlist := db.wishlist ++ [newRow] })

/-- `removeFromWishlist(userId, productId)`. -/
def removeFromWishlist (u p : String) (db : DB) : DB :=
  { db with wishlist := db.wishlist.filter (fun r => !(r.userId == u && r.productId == p)) }

/-- `addViewedProduct(viewedProduct)`: delete every view row of the pair,
then insert a fresh row whose `viewedAt` defaults to the current time. -/
def addViewedProduct (u p : String) (newId : String) (now : Nat) (db : DB) : ViewedRow × DB :=
  let cleaned := db.viewedProducts.filter (fun r => !(r.userId == u && r.productId == p))
  let newRow : ViewedRow := { id := newId, userId := u, productId := p, viewedAt := some now }
  (newRow, { db with viewedProducts := cleaned ++ [newRow] })

/-- A sequence of `addViewedProduct` calls for one pair, each call given
its own fresh id and timestamp. -/
def applyViews (u p : String) (calls : List (String × Nat)) (db : DB) : DB :=
  calls.foldl (fun d c => (addViewedProduct u p c.1 c.2 d).2) db

/-! ### Failure-aware write operations

Each `await db....` round trip in `storage.ts` is one SQL statement, which
either commits atomically or raises; no transaction groups consecutive
statements of one method.  Each failure-aware variant below takes one
Boolean per statement (`true` = that statement raises), and returns the
committed state paired with `true` when the method threw.  With all flags
`false` they agree with the plain operations above. -/

/-- `addToCart` under failures: `f1` = the initial `SELECT` raises, `f2` =
the `UPDATE`/`INSERT` raises.  The only mutating statement is the last. -/
def addToCartF (f1 f2 : Bool) (item : InsertCart) (newId : String) (now : Nat)
    (db : DB) : DB × Bool :=
  if f1 then (db, true)
  else if f2 then (db, true)
  else ((addToCart item newId now db).2, false)

/-- `updateCartQuantity` under failures: one statement (`DELETE` or
`UPDATE`). -/
def updateCartQuantityF (f1 : Bool) (u p : String) (q : Int) (db : DB) : DB × Bool :=
  if f1 then (db, true) else (updateCartQuantity u p q db, false)

/-- `removeFromCart` under failures: one `DELETE`. -/
def removeFromCartF (f1 : Bool) (u p : String) (db : DB) : DB × Bool :=
  if f1 then (db, true) else (removeFromCart u p db, false)

/-- `addToWishlist` under failures: `f1` = the `SELECT` raises, `f2` = the
`INSERT` raises (the insert only runs when no row exists). -/
def addToWishlistF (f1 f2 : Bool) (item : InsertWishlist) (newId : String) (now : Nat)
    (db : DB) : DB × Bool :=
  if f1 then (db, true)
  else
    match wishRowsFor item.userId item.productId db with
    | _ :: _ => (db, false)
    | [] =>
      if f2 then (db, true)
      else ((addToWishlist item newId now db).2, false)

/-- `removeFromWishlist` under failures: one `DELETE`. -/
def removeFromWishlistF (f1 : Bool) (u p : String) (db : DB) : DB × Bool :=
  if f1 then (db, true) else (removeFromWishlist u p db, false)

/-- `addViewedProduct` under failures: `f1` = the `DELETE` raises, `f2` =
the `INSERT` raises.  When the `DELETE` has committed and the `INSERT`
then raises, the deletion stays committed: the state exposed on failure is
the cleaned table without the replacement row. -/
def addViewedProductF (f1 f2 : Bool) (u p : String) (newId : String) (now : Nat)
    (db : DB) : DB × Bool :=
  if f1 then (db, true)
  else
    let cleaned : DB :=
      { db with viewedProducts :=
          db.viewedProducts.filter (fun r => !(r.userId == u && r.productId == p)) }
    if f2 then (cleaned, true)
    else ((addViewedProduct u p newId now db).2, false)

/-! ### Claim-side definitions

These follow the wording of the specification (not the code) and exist to
be compared with the code-level definitions above. -/

/-- One dimension of claim C1 exactly as stated: the target is null, or
equals the needle, or contains it as a (case-sensitive) substring. -/
def claimDimOkB (target : Option String) (needle : String) : Bool :=
  match target with
  | none => true
  | some t => t == needle || containsSub t needle

/-- The ordering relation of claim C2 as stated: a product may precede
another only if it does not place a null `ecoScore` before a non-null one,
and non-null scores are in descending order. -/
def descNullsLastOK (a b : Product) : Bool :=
  match a.ecoScore, b.ecoScore with
  | none, none => true
  | none, some _ => false
  | some _, none => true
  | some x, some y => decide (y ≤ x)

/-- The amended ordering of claim C2: null `ecoScore` first (PostgreSQL's
`DESC` default), then non-null scores descending. -/
def descNullsFirstOK (a b : Product) : Bool :=
  match a.ecoScore, b.ecoScore with
  | none, _ => true
  | some _, none => false
  | some x, some y => decide (y ≤ x)

/-- The search predicate in the specification's words: the title or the
review text contains the query as a case-insensitive substring (a null
text matches nothing), conjoined with the category filter. -/
def specSearchCond (query : String) (category : Option String) (p : Product) : Bool :=
  (containsCI p.title query ||
      (match p.text with
       | none => false
       | some t => containsCI t query)) && catPred category p

/-- The search pipeline in the specification's words: filter by
`specSearchCond`, order by descending eco-score, apply offset and limit. -/
def specSearch (query : String) (limit offset : Nat) (category : Option String)
    (db : DB) : List Product :=
  List.take limit (List.drop offset (sortEco (db.products.filter (specSearchCond query category))))

/-- The cart invariant of claim C5: at most one row per
`(userId, productId)` pair, and every row's quantity is at least 1. -/
def cartInv (db : DB) : Prop :=
  List.Pairwise (fun a b => ¬(a.userId = b.userId ∧ a.productId = b.productId)) db.cart
  ∧ ∀ r ∈ db.cart, 1 ≤ r.quantity

instance (db : DB) : Decidable (cartInv db) := by
  unfold cartInv; infer_instance

/-! ### Sample data for concrete counterexamples and witnesses -/

/-- A product with every optional column null. -/
def baseProduct : Product :=
  { id := "P0", productId := none, title := "T", text := none, ecoScore := none
    ageTarget := none, genderTarget := none, category := none, price := none, imageUrl := none }

/-- The empty database. -/
def emptyDB : DB :=
  { users := [], products := [], cart := [], wishlist := [], viewedProducts := [] }

/-- A product targeted at ages 25-34 and the gender label `"Female"`. -/
def pTargeted : Product :=
  { baseProduct with ageTarget := some "25-34", genderTarget := some "Female" }

/-- A database holding only `pTargeted`. -/
def dbTargeted : DB := { emptyDB with products := [pTargeted] }

/-- A database whose wishlist already holds two rows for the same
`(userId, productId)` pair (the schema declares no unique constraint on
the pair, so this state is representable). -/
def dbDupWish : DB :=
  { emptyDB with wishlist :=
      [{ id := "w1", userId := "u", productId := "p", addedAt := none },
       { id := "w2", userId := "u", productId := "p", addedAt := none }] }

/-- A database whose cart holds one row for `("u", "p")` with quantity 2. -/
def dbCart2 : DB :=
  { emptyDB with cart := [{ id := "c1", userId := "u", productId := "p",
                            quantity := 2, addedAt := none }] }

/-- A database with one recorded view for `("u", "p")`. -/
def dbView : DB :=
  { emptyDB with viewedProducts :=
      [{ id := "v1", userId := "u", productId := "p", viewedAt := some 0 }] }

/-- A registered user aged 30 with gender `"Female"`. -/
def sampleUser : User :=
  { id := "u1", name := "A", email := "a@x.com", password := "h",
    age := 30, gender := "Female", createdAt := none }

/-- A database holding `sampleUser` and `pTargeted`. -/
def dbUser : DB := { emptyDB with users := [sampleUser], products := [pTargeted] }

/-! ### Lemmas about LIKE pattern matching -/

theorem tails_any_isEmpty (s : List Char) : s.tails.any (fun t => t.isEmpty) = true := by
  induction s with
  | nil => rfl
  | cons c s2 ih => simp only [List.tails_cons, List.any_cons, ih, Bool.or_true]

theorem likeMatch_percent_cons (ps s : List Char) :
    likeMatch ('%' :: ps) s = s.tails.any (fun t => likeMatch ps t) := by
  simp [likeMatch]

theorem likeMatch_one_percent (s : List Char) : likeMatch ['%'] s = true := by
  rw [likeMatch_percent_cons]
  have h : (fun t : List Char => likeMatch [] t) = (fun t : List Char => t.isEmpty) := rfl
  rw [h, tails_any_isEmpty]

theorem likeMatch_double_percent (s : List Char) : likeMatch ['%', '%'] s = true := by
  rw [show (['%', '%'] : List Char) = '%' :: ['%'] from rfl, likeMatch_percent_cons]
  rw [List.any_eq_true]
  exact ⟨s, by simp, likeMatch_one_percent s⟩

theorem likeMatch_plain_percent (q : List Char) (hq : ∀ c ∈ q, c ≠ '%' ∧ c ≠ '_') :
    ∀ s, likeMatch (q ++ ['%']) s = startsWithChars q s := by
  induction q with
  | nil =>
    intro s
    simpa [startsWithChars] using likeMatch_one_percent s
  | cons c q2 ih =>
    intro s
    have hc := hq c (by simp)
    have hq2 : ∀ x ∈ q2, x ≠ '%' ∧ x ≠ '_' := fun x hx => hq x (by simp [hx])
    cases s with
    | nil => simp [likeMatch, startsWithChars, hc.1]
    | cons d s2 =>
      simp [likeMatch, startsWithChars, hc.1, hc.2, ih hq2 s2]

theorem likeMatch_wrap (q : List Char) (hq : ∀ c ∈ q, c ≠ '%' ∧ c ≠ '_') (s : List Char) :
    likeMatch ('%' :: (q ++ ['%'])) s = containsChars q s := by
  rw [likeMatch_percent_cons]
  unfold containsChars
  congr 1
  funext t
  exact likeMatch_plain_percent q hq t

theorem lowerChars_likePat (q : String) :
    lowerChars (likePat q) = '%' :: (lowerChars q ++ ['%']) := by
  show (((("%" : String) ++ q) ++ "%").data.map Char.toLower) = _
  rw [String.data_append, String.data_append, List.map_append, List.map_append]
  have h1 : ("%" : String).data.map Char.toLower = ['%'] := by decide
  rw [h1]
  simp [lowerChars]

theorem sqlIlike_eq_containsCI (q : String) (hq : NoWild q) (s : String) :
    sqlIlike s (likePat q) = containsCI s q := by
  unfold sqlIlike containsCI
  rw [lowerChars_likePat]
  exact likeMatch_wrap (lowerChars q) (fun c hc => ⟨(hq c hc).1, (hq c hc).2.1⟩) (lowerChars s)

theorem sqlIlike_empty_pat (s : String) : sqlIlike s (likePat "") = true := by
  unfold sqlIlike
  rw [lowerChars_likePat]
  exact likeMatch_double_percent (lowerChars s)

/-! ### Lemmas about the eco-score ordering -/

theorem ecoKeyGe_total (x y : Option Int) : ecoKeyGe x y = true ∨ ecoKeyGe y x = true := by
  rcases x with _ | u <;> rcases y with _ | v <;> simp [ecoKeyGe]
  exact le_total v u

theorem ecoKeyGe_trans (x y z : Option Int) (h1 : ecoKeyGe x y = true)
    (h2 : ecoKeyGe y z = true) : ecoKeyGe x z = true := by
  rcases x with _ | u <;> rcases y with _ | v <;> rcases z with _ | w <;>
    simp_all [ecoKeyGe]
  omega

theorem ecoBefore_total (a b : Product) : ecoBefore a b = true ∨ ecoBefore b a = true :=
  ecoKeyGe_total a.ecoScore b.ecoScore

theorem ecoBefore_trans (a b c : Product) (h1 : ecoBefore a b = true)
    (h2 : ecoBefore b c = true) : ecoBefore a c = true :=
  ecoKeyGe_trans a.ecoScore b.ecoScore c.ecoScore h1 h2

theorem mem_insertEco (a x : Product) (l : List Product) :
    x ∈ insertEco a l ↔ x = a ∨ x ∈ l := by
  induction l with
  | nil => simp [insertEco]
  | cons b l2 ih =>
    unfold insertEco
    by_cases h : ecoBefore a b = true
    · simp [h]
    · simp only [Bool.not_eq_true] at h
      simp [h, ih]
      tauto

theorem sorted_insertEco (a : Product) (l : List Product)
    (hl : List.Pairwise (fun x y => ecoBefore x y = true) l) :
    List.Pairwise (fun x y => ecoBefore x y = true) (insertEco a l) := by
  induction l with
  | nil => simp [insertEco]
  | cons b l2 ih =>
    rcases List.pairwise_cons.mp hl with ⟨hb, hl2⟩
    unfold insertEco
    by_cases h : ecoBefore a b = true
    · rw [if_pos h]
      refine List.pairwise_cons.mpr ⟨?_, hl⟩
      intro x hx
      rcases List.mem_cons.mp hx with rfl | hx2
      · exact h
      · exact ecoBefore_trans a b x h (hb x hx2)
    · rw [if_neg h]
      refine List.pairwise_cons.mpr ⟨?_, ih hl2⟩
      intro x hx
      rcases (mem_insertEco a x l2).mp hx with hxa | hx2
      · rw [hxa]
        rcases ecoBefore_total a b with h1 | h1
        · exact absurd h1 h
        · exact h1
      · exact hb x hx2

theorem sorted_sortEco (l : List Product) :
    List.Pairwise (fun x y => ecoBefore x y = true) (sortEco l) := by
  induction l with
  | nil => simp [sortEco]
  | cons a l2 ih => exact sorted_insertEco a (sortEco l2) ih

theorem mem_sortEco (x : Product) (l : List Product) : x ∈ sortEco l ↔ x ∈ l := by
  induction l with
  | nil => simp [sortEco]
  | cons a l2 ih =>
    show x ∈ insertEco a (sortEco l2) ↔ _
    rw [mem_insertEco]
    simp [ih]

theorem sorted_pipeline (lim off : Nat) (m : List Product) :
    List.Pairwise (fun x y => ecoBefore x y = true)
      (List.take lim (List.drop off (sortEco m))) :=
  List.Pairwise.sublist
    ((List.take_sublist _ _).trans (List.drop_sublist _ _)) (sorted_sortEco m)

theorem descNullsFirstOK_eq_ecoBefore (a b : Product) :
    descNullsFirstOK a b = ecoBefore a b := by
  unfold descNullsFirstOK ecoBefore ecoKeyGe
  rcases a.ecoScore with _ | u <;> rcases b.ecoScore with _ | v <;> rfl

/-! ### Lemmas about the cart, wishlist and view-history tables -/

theorem cartRowsFor_removeFromCart (u p : String) (db : DB) :
    cartRowsFor u p (removeFromCart u p db) = [] := by
  unfold cartRowsFor removeFromCart
  rw [List.filter_filter]
  have h : ∀ r : CartRow,
      ((r.userId == u && r.productId == p) && !(r.userId == u && r.productId == p)) = false := by
    intro r; cases (r.userId == u && r.productId == p) <;> rfl
  rw [show (fun r : CartRow =>
        (r.userId == u && r.productId == p) && !(r.userId == u && r.productId == p))
      = (fun _ => false) from funext h]
  exact List.filter_false _

/-- The cart-update function used by `addToCart` and `updateCartQuantity`
leaves the `(userId, productId)` key of every row unchanged, so filtering
for a pair commutes with the update. -/
theorem cart_update_keeps_keys (u p : String) (qty : Int) (r : CartRow) :
    (((if r.userId == u && r.productId == p then { r with quantity := qty } else r) :
        CartRow).userId == u
      && ((if r.userId == u && r.productId == p then { r with quantity := qty } else r) :
        CartRow).productId == p)
    = (r.userId == u && r.productId == p) := by
  by_cases h : (r.userId == u && r.productId == p) = true
  · simp only [if_pos h]
  · simp only [if_neg h]

theorem cartRowsFor_update (u p : String) (qty : Int) (db : DB) :
    cartRowsFor u p { db with cart := db.cart.map (fun r =>
        if r.userId == u && r.productId == p then { r with quantity := qty } else r) }
      = (cartRowsFor u p db).map (fun r =>
        if r.userId == u && r.productId == p then { r with quantity := qty } else r) := by
  unfold cartRowsFor
  rw [List.filter_map]
  congr 1
  apply List.filter_congr
  intro r _
  exact cart_update_keeps_keys u p qty r

theorem cartRowsFor_insert (u p id0 : String) (qv : Int) (t : Nat) (db : DB) :
    cartRowsFor u p { db with cart := db.cart ++
        [{ id := id0, userId := u, productId := p, quantity := qv, addedAt := some t }] }
      = cartRowsFor u p db ++
        [{ id := id0, userId := u, productId := p, quantity := qv, addedAt := some t }] := by
  unfold cartRowsFor
  rw [List.filter_append]
  congr 1
  simp

theorem wishRowsFor_insert (u p id0 : String) (t : Nat) (db : DB) :
    wishRowsFor u p { db with wishlist := db.wishlist ++
        [{ id := id0, userId := u, productId := p, addedAt := some t }] }
      = wishRowsFor u p db ++ [{ id := id0, userId := u, productId := p, addedAt := some t }] := by
  unfold wishRowsFor
  rw [List.filter_append]
  congr 1
  simp

theorem viewedRowsFor_addViewedProduct (u p id0 : String) (t : Nat) (db : DB) :
    viewedRowsFor u p ((addViewedProduct u p id0 t db).2)
      = [{ id := id0, userId := u, productId := p, viewedAt := some t }] := by
  unfold viewedRowsFor addViewedProduct
  rw [List.filter_append, List.filter_filter]
  have h : ∀ r : ViewedRow,
      ((r.userId == u && r.productId == p) && !(r.userId == u && r.productId == p)) = false := by
    intro r; cases (r.userId == u && r.productId == p) <;> rfl
  rw [show (fun r : ViewedRow =>
        (r.userId == u && r.productId == p) && !(r.userId == u && r.productId == p))
      = (fun _ => false) from funext h]
  rw [List.filter_false]
  simp

/-! ### Lemmas about the recommendation and search predicates -/

theorem noWild_ageGroup (age : Int) : NoWild (ageGroupOf age) := by
  unfold ageGroupOf
  split_ifs <;> decide

/-- Decompose one dimension of the recommendation `WHERE` clause: when
the needle has no LIKE metacharacters, a matching target column is null,
or equal to the needle, or contains it case-insensitively. -/
theorem dim_cond_decomp (target : Option String) (needle : String) (hn : NoWild needle)
    (h : (sqlEqOpt target needle || sqlIlikeOpt target (likePat needle)
          || target.isNone) = true) :
    target = none ∨ target = some needle
      ∨ ∃ t, target = some t ∧ containsCI t needle = true := by
  rcases target with _ | t
  · exact Or.inl rfl
  · simp only [sqlEqOpt, sqlIlikeOpt, Option.isNone, Bool.or_false] at h
    rw [Bool.or_eq_true] at h
    rcases h with h | h
    · exact Or.inr (Or.inl (by rw [of_decide_eq_true h]))
    · exact Or.inr (Or.inr ⟨t, rfl, by rw [← sqlIlike_eq_containsCI needle hn t]; exact h⟩)

theorem searchProducts_empty_query (lim off : Nat) (cat : Option String) (db : DB) :
    searchProducts "" lim off cat db = getProducts lim off cat db := by
  unfold searchProducts getProducts
  have h : db.products.filter (searchCond "" cat) = db.products.filter (catPred cat) := by
    apply List.filter_congr
    intro p _
    unfold searchCond
    rw [sqlIlike_empty_pat]
    simp
  rw [h]

/-! ### Claim C1 — demographic recommendation filter -/

/-- C1, counterexample: with `age = 30`, `gender = "Female"` and a catalog
holding one product whose `genderTarget` is `"FEMALE"`, the product is
returned (ILIKE is case-insensitive), yet its `genderTarget` is not null,
not equal to `"Female"`, and does not contain `"Female"` as a substring —
so the claim's stated membership condition is violated by a returned
product. -/
theorem recommend_case_sensitivity_cex :
    getRecommendedProducts 30 "Female" 20
        { emptyDB with products := [{ baseProduct with genderTarget := some "FEMALE" }] }
      = [{ baseProduct with genderTarget := some "FEMALE" }]
    ∧ claimDimOkB (some "FEMALE") "Female" = false :=
  ⟨by decide, by decide⟩

/-- C1, amended: for every age and every gender string free of SQL LIKE
metacharacters, `RecommendByDemographic` returns only products whose
`ageTarget` is null, equals the bucket label, or contains it
case-insensitively, and whose `genderTarget` is null, equals the gender
string, or contains it case-insensitively; the bucket boundaries are
exactly as stated in the claim. -/
theorem getRecommendedProducts_only_matching (age : Int) (gender : String) (lim : Nat)
    (db : DB) (p : Product) (hg : NoWild gender)
    (hp : p ∈ getRecommendedProducts age gender lim db) :
    (p.ageTarget = none ∨ p.ageTarget = some (ageGroupOf age)
        ∨ ∃ t, p.ageTarget = some t ∧ containsCI t (ageGroupOf age) = true)
    ∧ (p.genderTarget = none ∨ p.genderTarget = some gender
        ∨ ∃ t, p.genderTarget = some t ∧ containsCI t gender = true) := by
  unfold getRecommendedProducts at hp
  have hmem := (mem_sortEco p _).mp (List.mem_of_mem_take hp)
  have hcond := (List.mem_filter.mp hmem).2
  rw [Bool.and_eq_true] at hcond
  obtain ⟨hA, hG⟩ := hcond
  unfold ageDimCond at hA
  unfold genderDimCond at hG
  exact ⟨dim_cond_decomp p.ageTarget (ageGroupOf age) (noWild_ageGroup age) hA,
         dim_cond_decomp p.genderTarget gender hg hG⟩

/-- C1, witness: the amended theorem applied to `age = 30`,
`gender = "Female"` and a concrete returned product. -/
theorem getRecommendedProducts_only_matching_witness :
    (pTargeted.ageTarget = none ∨ pTargeted.ageTarget = some (ageGroupOf 30)
        ∨ ∃ t, pTargeted.ageTarget = some t ∧ containsCI t (ageGroupOf 30) = true)
    ∧ (pTargeted.genderTarget = none ∨ pTargeted.genderTarget = some "Female"
        ∨ ∃ t, pTargeted.genderTarget = some t ∧ containsCI t "Female" = true) :=
  getRecommendedProducts_only_matching 30 "Female" 20 dbTargeted pTargeted
    (by decide) (by decide)

/-! ### Claim C2 — result ordering -/

/-- C2, counterexample: a catalog with one null-score product and one
scored product.  In the `List` result the null-score product appears
*before* the scored one (PostgreSQL sorts `NULL` first under `DESC`), so
the claimed "null after non-null" ordering fails. -/
theorem ordering_nulls_last_cex :
    ¬ List.Pairwise (fun a b => descNullsLastOK a b = true)
        (getProducts 20 0 none
          { emptyDB with products :=
              [{ baseProduct with id := "PB", ecoScore := some 500 },
               { baseProduct with id := "PA" }] }) := by
  decide

/-- C2, amended: in List, Search and RecommendByDemographic results,
every product with a null `ecoScore` appears *before* every product with
a non-null `ecoScore`, and among non-null scores the order is
descending. -/
theorem results_sorted_nulls_first (lim off : Nat) (cat : Option String) (q : String)
    (age : Int) (gender : String) (db : DB) :
    List.Pairwise (fun a b => descNullsFirstOK a b = true) (getProducts lim off cat db)
    ∧ List.Pairwise (fun a b => descNullsFirstOK a b = true) (searchProducts q lim off cat db)
    ∧ List.Pairwise (fun a b => descNullsFirstOK a b = true)
        (getRecommendedProducts age gender lim db) := by
  have he : (fun a b : Product => descNullsFirstOK a b = true)
      = (fun a b => ecoBefore a b = true) := by
    funext a b
    rw [descNullsFirstOK_eq_ecoBefore]
  rw [he]
  refine ⟨sorted_pipeline lim off _, sorted_pipeline lim off _, ?_⟩
  exact List.Pairwise.sublist (List.take_sublist _ _) (sorted_sortEco _)

/-! ### Claim C3 — search semantics -/

/-- C3, counterexample: for the whitespace-only query `" "`, Search does
*not* degrade to List: a product titled `"Bamboo"` (no space in title,
null text) is in the List result but not in the Search result, because
the literal pattern `'% %'` requires a space somewhere in the title or
text. -/
theorem search_whitespace_cex :
    searchProducts " " 20 0 none
        { emptyDB with products := [{ baseProduct with id := "PC", title := "Bamboo" }] }
      ≠ getProducts 20 0 none
        { emptyDB with products := [{ baseProduct with id := "PC", title := "Bamboo" }] } := by
  decide

/-- C3, amended: for a query free of SQL LIKE metacharacters, Search
returns exactly the products (within limit/offset, in eco-score order)
whose title or text contains the query as a case-insensitive substring,
conjoined with the category filter; when the query is the empty string
the result coincides with List.  (A whitespace-only query is not
special-cased: its whitespace is matched literally.) -/
theorem searchProducts_spec (q : String) (lim off : Nat) (cat : Option String) (db : DB)
    (hq : NoWild q) :
    searchProducts q lim off cat db = specSearch q lim off cat db
    ∧ searchProducts "" lim off cat db = getProducts lim off cat db := by
  constructor
  · unfold searchProducts specSearch
    have h : db.products.filter (searchCond q cat)
        = db.products.filter (specSearchCond q cat) := by
      apply List.filter_congr
      intro p _
      unfold searchCond specSearchCond
      rw [sqlIlike_eq_containsCI q hq]
      congr 1
      congr 1
      cases p.text with
      | none => rfl
      | some t => exact sqlIlike_eq_containsCI q hq t
    rw [h]
  · exact searchProducts_empty_query lim off cat db

/-- C3, witness: the amended theorem applied to the query `"bam"` over a
concrete catalog. -/
theorem searchProducts_spec_witness :
    (searchProducts "bam" 20 0 none dbTargeted = specSearch "bam" 20 0 none dbTargeted)
    ∧ searchProducts "" 20 0 none dbTargeted = getProducts 20 0 none dbTargeted :=
  searchProducts_spec "bam" 20 0 none dbTargeted (by decide)

/-! ### Claim C4 — addToCart semantics -/

/-- `addToCart` on a pair with no existing row reduces to the insert
branch. -/
theorem addToCart_insert_case (u p id0 : String) (t : Nat) (q : Option Int) (db : DB)
    (hw : cartRowsFor u p db = []) :
    addToCart ⟨u, p, q⟩ id0 t db
      = ({ id := id0, userId := u, productId := p, quantity := q.getD 1, addedAt := some t },
         { db with cart := db.cart ++
            [{ id := id0, userId := u, productId := p, quantity := q.getD 1,
               addedAt := some t }] }) := by
  simp only [addToCart, hw]

/-- `addToCart` on a pair with existing rows reduces to the update
branch. -/
theorem addToCart_update_case (u p id0 : String) (t : Nat) (q : Option Int) (db : DB)
    (e : CartRow) (rest : List CartRow) (hw : cartRowsFor u p db = e :: rest) :
    addToCart ⟨u, p, q⟩ id0 t db
      = ({ e with quantity := e.quantity + jsOrOne q },
         { db with cart := db.cart.map (fun r =>
            if r.userId == u && r.productId == p
            then { r with quantity := e.quantity + jsOrOne q } else r) }) := by
  simp only [addToCart, hw]

/-- The rows for a pair after an update-branch `addToCart`, when exactly
one row existed. -/
theorem cartRowsFor_after_update (u p id0 : String) (t : Nat) (q : Option Int) (db : DB)
    (e : CartRow) (hw : cartRowsFor u p db = [e]) :
    cartRowsFor u p (addToCart ⟨u, p, q⟩ id0 t db).2
      = [{ e with quantity := e.quantity + jsOrOne q }] := by
  have hpe : (e.userId == u && e.productId == p) = true := by
    have hme : e ∈ cartRowsFor u p db := by
      rw [hw]; exact List.mem_singleton_self e
    exact (List.mem_filter.mp hme).2
  rw [addToCart_update_case u p id0 t q db e [] hw]
  rw [cartRowsFor_update, hw, List.map_singleton, if_pos hpe]

/-- C4, counterexample: from a cart holding one row for `("u", "p")` with
quantity 2, `AddToCart` with an explicitly requested quantity of 0 leaves
quantity 3 — JavaScript `cartItem.quantity || 1` treats 0 as absent and
increments by 1, not by the requested amount 0. -/
theorem addToCart_zero_quantity_cex :
    (cartRowsFor "u" "p"
        (addToCart { userId := "u", productId := "p", quantity := some 0 } "c2" 5 dbCart2).2).map
        (fun r => r.quantity) = [3]
    ∧ ¬ ((3 : Int) = 2 + 0) :=
  ⟨by decide, by decide⟩

/-- C4, amended: `AddToCart(u, p, 1)` twice from a state with no row for
the pair yields exactly one row with quantity 2.  In general, when
exactly one row exists, `AddToCart` increments its quantity by the
requested amount — except that a requested amount of 0, like an omitted
one, increments by 1 (JavaScript `|| 1`) — and returns the updated row;
when no row exists it inserts a new row with the given quantity (default
1 when omitted). -/
theorem addToCart_spec (u p id1 id2 : String) (t1 t2 : Nat) (q : Option Int) (db : DB) :
    (cartRowsFor u p db = [] →
      cartRowsFor u p
          (addToCart ⟨u, p, some 1⟩ id2 t2 (addToCart ⟨u, p, some 1⟩ id1 t1 db).2).2
        = [{ id := id1, userId := u, productId := p, quantity := 2, addedAt := some t1 }])
    ∧ (∀ e, cartRowsFor u p db = [e] →
        (addToCart ⟨u, p, q⟩ id1 t1 db).1 = { e with quantity := e.quantity + jsOrOne q }
        ∧ cartRowsFor u p (addToCart ⟨u, p, q⟩ id1 t1 db).2
            = [{ e with quantity := e.quantity + jsOrOne q }])
    ∧ (cartRowsFor u p db = [] →
        (addToCart ⟨u, p, q⟩ id1 t1 db).1
            = { id := id1, userId := u, productId := p, quantity := q.getD 1,
                addedAt := some t1 }
        ∧ cartRowsFor u p (addToCart ⟨u, p, q⟩ id1 t1 db).2
            = [{ id := id1, userId := u, productId := p, quantity := q.getD 1,
                 addedAt := some t1 }]) := by
  refine ⟨?_, ?_, ?_⟩
  · intro hw
    have hw2 : cartRowsFor u p (addToCart ⟨u, p, some 1⟩ id1 t1 db).2
        = [{ id := id1, userId := u, productId := p, quantity := 1, addedAt := some t1 }] := by
      rw [addToCart_insert_case u p id1 t1 (some 1) db hw]
      show cartRowsFor u p { db with cart := db.cart ++
        [{ id := id1, userId := u, productId := p, quantity := 1, addedAt := some t1 }] } = _
      rw [cartRowsFor_insert, hw]
      rfl
    rw [cartRowsFor_after_update u p id2 t2 (some 1) _ _ hw2]
    norm_num [jsOrOne]
  · intro e hw
    refine ⟨?_, cartRowsFor_after_update u p id1 t1 q db e hw⟩
    rw [addToCart_update_case u p id1 t1 q db e [] hw]
  · intro hw
    refine ⟨?_, ?_⟩
    · rw [addToCart_insert_case u p id1 t1 q db hw]
    · rw [addToCart_insert_case u p id1 t1 q db hw]
      show cartRowsFor u p { db with cart := db.cart ++
        [{ id := id1, userId := u, productId := p, quantity := q.getD 1,
           addedAt := some t1 }] } = _
      rw [cartRowsFor_insert, hw]
      rfl

/-- C4, witness: the amended theorem applied to concrete inputs — a
double add of quantity 1 from the empty database, an increment of an
existing row, and a fresh insert. -/
theorem addToCart_spec_witness :
    cartRowsFor "u" "p"
        (addToCart ⟨"u", "p", some 1⟩ "c2" 2 (addToCart ⟨"u", "p", some 1⟩ "c1" 1 emptyDB).2).2
      = [{ id := "c1", userId := "u", productId := "p", quantity := 2, addedAt := some 1 }]
    ∧ (addToCart ⟨"u", "p", some 4⟩ "c9" 7 dbCart2).1
      = { id := "c1", userId := "u", productId := "p", quantity := 6, addedAt := none }
    ∧ (addToCart ⟨"u", "p", some 4⟩ "c9" 7 emptyDB).1
      = { id := "c9", userId := "u", productId := "p", quantity := 4, addedAt := some 7 } := by
  refine ⟨(addToCart_spec "u" "p" "c1" "c2" 1 2 (some 1) emptyDB).1 (by decide), ?_, ?_⟩
  · have h := ((addToCart_spec "u" "p" "c9" "c9" 7 7 (some 4) dbCart2).2.1
      { id := "c1", userId := "u", productId := "p", quantity := 2, addedAt := none }
      (by decide)).1
    simpa using h
  · have h := ((addToCart_spec "u" "p" "c9" "c9" 7 7 (some 4) emptyDB).2.2 (by decide)).1
    simpa using h

/-! ### Claim C5 — cart invariant -/

/-- Keys are untouched by the quantity-overwriting map, so pairwise key
distinctness is preserved. -/
theorem cart_update_userId (u p : String) (qty : Int) (r : CartRow) :
    ((if r.userId == u && r.productId == p then { r with quantity := qty } else r) :
      CartRow).userId = r.userId := by
  by_cases h : (r.userId == u && r.productId == p) = true <;> simp [h]

theorem cart_update_productId (u p : String) (qty : Int) (r : CartRow) :
    ((if r.userId == u && r.productId == p then { r with quantity := qty } else r) :
      CartRow).productId = r.productId := by
  by_cases h : (r.userId == u && r.productId == p) = true <;> simp [h]

theorem cart_pairwise_update (u p : String) (qty : Int) (l : List CartRow)
    (h : List.Pairwise (fun a b => ¬(a.userId = b.userId ∧ a.productId = b.productId)) l) :
    List.Pairwise (fun a b => ¬(a.userId = b.userId ∧ a.productId = b.productId))
      (l.map (fun r =>
        if r.userId == u && r.productId == p then { r with quantity := qty } else r)) := by
  rw [List.pairwise_map]
  apply h.imp
  intro a b hab
  rw [cart_update_userId u p qty a, cart_update_userId u p qty b,
    cart_update_productId u p qty a, cart_update_productId u p qty b]
  exact hab

/-- C5, counterexample: the invariant holds in the empty database, but
`AddToCart` with a requested quantity of 0 inserts a row with quantity 0,
violating "every CartEntry row has quantity ≥ 1".  (The claim quantifies
over *any* requested quantity.) -/
theorem cart_invariant_cex :
    cartInv emptyDB
    ∧ ¬ cartInv
        (addToCart { userId := "u", productId := "p", quantity := some 0 } "c1" 0 emptyDB).2 :=
  ⟨by decide, by decide⟩

/-- C5, amended: the invariant "at most one row per pair, quantity ≥ 1"
is preserved by `UpdateCartQuantity` with any quantity and by
`RemoveFromCart`, and by `AddToCart` provided the requested quantity is
at least 1 when explicitly given (an omitted quantity defaults to 1);
an explicit requested quantity ≤ 0 can break the quantity bound. -/
theorem cart_ops_preserve_inv (u p id0 : String) (t : Nat) (q : Option Int) (q2 : Int)
    (db : DB) (h : cartInv db) :
    ((∀ v, q = some v → 1 ≤ v) → cartInv (addToCart ⟨u, p, q⟩ id0 t db).2)
    ∧ cartInv (updateCartQuantity u p q2 db)
    ∧ cartInv (removeFromCart u p db) := by
  obtain ⟨hpw, hqty⟩ := h
  have hremove : cartInv (removeFromCart u p db) := by
    constructor
    · exact List.Pairwise.sublist (List.filter_sublist _) hpw
    · intro r hr
      exact hqty r (List.mem_of_mem_filter hr)
  refine ⟨?_, ?_, hremove⟩
  · intro hq
    have hinc : 1 ≤ jsOrOne q := by
      rcases q with _ | v
      · simp [jsOrOne]
      · have hv := hq v rfl
        simp only [jsOrOne]
        rw [if_neg (by omega)]
        exact hv
    rcases hw : cartRowsFor u p db with _ | ⟨e, rest⟩
    · simp only [addToCart, hw]
      constructor
      · rw [List.pairwise_append]
        refine ⟨hpw, List.pairwise_singleton _ _, ?_⟩
        intro a ha b hb
        rw [List.mem_singleton.mp hb]
        have hna := List.filter_eq_nil_iff.mp hw a ha
        simp only [Bool.and_eq_true, beq_iff_eq] at hna
        simp only [not_and]
        intro h1 _
        exact hna ⟨h1, by
          have := List.mem_singleton.mp hb
          simp_all⟩
      · intro r hr
        rcases List.mem_append.mp hr with hr1 | hr1
        · exact hqty r hr1
        · rw [List.mem_singleton.mp hr1]
          rcases q with _ | v
          · simp
          · simpa using hq v rfl
    · have he : e ∈ cartRowsFor u p db := by rw [hw]; exact List.mem_cons_self e rest
      have heq : 1 ≤ e.quantity := hqty e (List.mem_of_mem_filter he)
      simp only [addToCart, hw]
      constructor
      · exact cart_pairwise_update u p _ db.cart hpw
      · intro r hr
        rcases List.mem_map.mp hr with ⟨x, hx, hfx⟩
        rw [← hfx]
        by_cases hc : (x.userId == u && x.productId == p) = true
        · rw [if_pos hc]
          show 1 ≤ e.quantity + jsOrOne q
          omega
        · rw [if_neg hc]
          exact hqty x hx
  · unfold updateCartQuantity
    by_cases hq2 : q2 ≤ 0
    · rw [if_pos hq2]
      exact hremove
    · rw [if_neg hq2]
      constructor
      · exact cart_pairwise_update u p q2 db.cart hpw
      · intro r hr
        rcases List.mem_map.mp hr with ⟨x, hx, hfx⟩
        rw [← hfx]
        by_cases hc : (x.userId == u && x.productId == p) = true
        · rw [if_pos hc]
          show 1 ≤ q2
          omega
        · rw [if_neg hc]
          exact hqty x hx

/-- C5, witness: the amended theorem applied to the database whose cart
holds one row of quantity 2. -/
theorem cart_ops_preserve_inv_witness :
    cartInv (addToCart ⟨"u", "p", some 3⟩ "c7" 9 dbCart2).2
    ∧ cartInv (updateCartQuantity "u" "p" 5 dbCart2)
    ∧ cartInv (removeFromCart "u" "p" dbCart2) := by
  obtain ⟨h1, h2, h3⟩ := cart_ops_preserve_inv "u" "p" "c7" 9 (some 3) 5 dbCart2 (by decide)
  exact ⟨h1 (by intro v hv; cases hv; decide), h2, h3⟩

/-! ### Claim C6 — updateCartQuantity semantics -/

/-- C6, confirmed: `UpdateCartQuantity` with quantity ≤ 0 is exactly
`RemoveFromCart` (the code delegates) and leaves no row for the pair;
with a positive quantity and exactly one existing row it overwrites the
stored quantity with the given absolute value. -/
theorem updateCartQuantity_spec (u p : String) (q : Int) (db : DB) :
    (q ≤ 0 →
      updateCartQuantity u p q db = removeFromCart u p db
      ∧ cartRowsFor u p (updateCartQuantity u p q db) = [])
    ∧ (∀ e, 0 < q → cartRowsFor u p db = [e] →
        cartRowsFor u p (updateCartQuantity u p q db) = [{ e with quantity := q }]) := by
  constructor
  · intro hq
    have hd : updateCartQuantity u p q db = removeFromCart u p db := by
      unfold updateCartQuantity
      rw [if_pos hq]
    refine ⟨hd, ?_⟩
    rw [hd]
    exact cartRowsFor_removeFromCart u p db
  · intro e hq hw
    have hpe : (e.userId == u && e.productId == p) = true := by
      have hme : e ∈ cartRowsFor u p db := by
        rw [hw]; exact List.mem_singleton_self e
      exact (List.mem_filter.mp hme).2
    unfold updateCartQuantity
    rw [if_neg (by omega)]
    rw [cartRowsFor_update, hw, List.map_singleton, if_pos hpe]

/-- C6, witness: a quantity of 0 removes the row; a quantity of 5
overwrites the stored quantity 2 with 5. -/
theorem updateCartQuantity_spec_witness :
    cartRowsFor "u" "p" (updateCartQuantity "u" "p" 0 dbCart2) = []
    ∧ cartRowsFor "u" "p" (updateCartQuantity "u" "p" 5 dbCart2)
        = [{ id := "c1", userId := "u", productId := "p", quantity := 5, addedAt := none }] := by
  refine ⟨((updateCartQuantity_spec "u" "p" 0 dbCart2).1 (by decide)).2, ?_⟩
  have h := (updateCartQuantity_spec "u" "p" 5 dbCart2).2
    { id := "c1", userId := "u", productId := "p", quantity := 2, addedAt := none }
    (by decide) (by decide)
  simpa using h

/-! ### Claim C7 — addToWishlist idempotence -/

/-- C7, counterexample: from a state that already holds two wishlist rows
for the pair (representable, since the schema declares no unique
constraint), two sequential `AddToWishlist` calls leave two rows, not
exactly one — the claim's "from any state" is too strong. -/
theorem addToWishlist_any_state_cex :
    (wishRowsFor "u" "p"
        (addToWishlist ⟨"u", "p"⟩ "w4" 2 ((addToWishlist ⟨"u", "p"⟩ "w3" 1 dbDupWish).2)).2).length
      = 2
    ∧ (2 : Nat) ≠ 1 :=
  ⟨by decide, by decide⟩

/-- `addToWishlist` on a pair with existing rows returns the first
existing row and leaves the state untouched. -/
theorem addToWishlist_existing (u p id0 : String) (t : Nat) (db : DB) (e : WishlistRow)
    (rest : List WishlistRow) (hw : wishRowsFor u p db = e :: rest) :
    addToWishlist ⟨u, p⟩ id0 t db = (e, db) := by
  simp only [addToWishlist, hw]

/-- `addToWishlist` on a pair with no existing row inserts a fresh row. -/
theorem addToWishlist_insert (u p id0 : String) (t : Nat) (db : DB)
    (hw : wishRowsFor u p db = []) :
    addToWishlist ⟨u, p⟩ id0 t db
      = ({ id := id0, userId := u, productId := p, addedAt := some t },
         { db with wishlist := db.wishlist ++
            [{ id := id0, userId := u, productId := p, addedAt := some t }] }) := by
  simp only [addToWishlist, hw]

/-- C7, amended: from any state holding at most one wishlist row for the
pair, two sequential `AddToWishlist` calls leave exactly one row, and the
second call returns the same row as the first (same identity, no error —
the operation is total). -/
theorem addToWishlist_idempotent (u p id1 id2 : String) (t1 t2 : Nat) (db : DB)
    (h : (wishRowsFor u p db).length ≤ 1) :
    wishRowsFor u p (addToWishlist ⟨u, p⟩ id2 t2 ((addToWishlist ⟨u, p⟩ id1 t1 db).2)).2
      = [(addToWishlist ⟨u, p⟩ id1 t1 db).1]
    ∧ (addToWishlist ⟨u, p⟩ id2 t2 ((addToWishlist ⟨u, p⟩ id1 t1 db).2)).1
      = (addToWishlist ⟨u, p⟩ id1 t1 db).1 := by
  rcases hw : wishRowsFor u p db with _ | ⟨e, rest⟩
  · rw [addToWishlist_insert u p id1 t1 db hw]
    have hrows2 : wishRowsFor u p
        ((({ id := id1, userId := u, productId := p, addedAt := some t1 },
            { db with wishlist := db.wishlist ++
              [{ id := id1, userId := u, productId := p, addedAt := some t1 }] }) :
          WishlistRow × DB).2)
        = { id := id1, userId := u, productId := p, addedAt := some t1 } :: [] := by
      show wishRowsFor u p { db with wishlist := db.wishlist ++
        [{ id := id1, userId := u, productId := p, addedAt := some t1 }] } = _
      rw [wishRowsFor_insert, hw]
      rfl
    rw [addToWishlist_existing u p id2 t2 _ _ _ hrows2]
    exact ⟨hrows2, rfl⟩
  · have hrest : rest = [] := by
      rw [hw] at h
      simp only [List.length_cons] at h
      have h0 : rest.length = 0 := by omega
      exact List.length_eq_zero.mp h0
    subst hrest
    have h1 := addToWishlist_existing u p id1 t1 db e [] hw
    rw [h1]
    have h2 := addToWishlist_existing u p id2 t2 db e [] hw
    rw [h2]
    exact ⟨hw, rfl⟩

/-- C7, witness: the amended theorem applied to the empty database. -/
theorem addToWishlist_idempotent_witness :
    wishRowsFor "u" "p"
        (addToWishlist ⟨"u", "p"⟩ "w2" 2 ((addToWishlist ⟨"u", "p"⟩ "w1" 1 emptyDB).2)).2
      = [(addToWishlist ⟨"u", "p"⟩ "w1" 1 emptyDB).1]
    ∧ (addToWishlist ⟨"u", "p"⟩ "w2" 2 ((addToWishlist ⟨"u", "p"⟩ "w1" 1 emptyDB).2)).1
      = (addToWishlist ⟨"u", "p"⟩ "w1" 1 emptyDB).1 :=
  addToWishlist_idempotent "u" "p" "w1" "w2" 1 2 emptyDB (by decide)

/-! ### Claim C8 — view recording is move-to-front -/

/-- After a nonempty sequence of `addViewedProduct` calls for one pair,
exactly one view row remains, carrying the last call's id and
timestamp. -/
theorem applyViews_last (u p : String) (c : String × Nat) (rest : List (String × Nat))
    (db : DB) :
    viewedRowsFor u p (applyViews u p (c :: rest) db)
      = [{ id := ((c :: rest).getLast (List.cons_ne_nil c rest)).1, userId := u,
           productId := p,
           viewedAt := some ((c :: rest).getLast (List.cons_ne_nil c rest)).2 }] := by
  induction rest generalizing c db with
  | nil =>
    show viewedRowsFor u p ((addViewedProduct u p c.1 c.2 db).2) = _
    rw [viewedRowsFor_addViewedProduct]
    rfl
  | cons c2 rest2 ih =>
    show viewedRowsFor u p
      (applyViews u p (c2 :: rest2) ((addViewedProduct u p c.1 c.2 db).2)) = _
    rw [ih c2 ((addViewedProduct u p c.1 c.2 db).2)]
    rw [List.getLast_cons (List.cons_ne_nil c2 rest2)]

/-- C8, confirmed: `RecordView` implements move-to-front — after any
nonempty sequence of `RecordView` calls for `(u, p)` (each with its own
fresh id and timestamp), exactly one view row exists for the pair, and
its `viewedAt` is the most recent call's timestamp (for two sequential
calls, the second call's timestamp). -/
theorem addViewedProduct_move_to_front (u p : String) (calls : List (String × Nat))
    (db : DB) (h : calls ≠ []) :
    viewedRowsFor u p (applyViews u p calls db)
      = [{ id := (calls.getLast h).1, userId := u, productId := p,
           viewedAt := some (calls.getLast h).2 }] := by
  rcases calls with _ | ⟨c, rest⟩
  · exact absurd rfl h
  · exact applyViews_last u p c rest db

/-- C8, witness: two recorded views leave one row carrying the second
call's timestamp. -/
theorem addViewedProduct_move_to_front_witness :
    viewedRowsFor "u" "p" (applyViews "u" "p" [("v1", 1), ("v2", 2)] dbView)
      = [{ id := "v2", userId := "u", productId := "p", viewedAt := some 2 }] := by
  have h := addViewedProduct_move_to_front "u" "p" [("v1", 1), ("v2", 2)] dbView
    (by decide)
  simpa using h

/-! ### Claim C9 — personalized recommendation is the demographic query -/

/-- C9, confirmed: for an authenticated user found in storage, the
personalized-recommendations route returns exactly
`getRecommendedProducts(user.age, user.gender, limit)`, and the result is
unchanged under arbitrary replacement of the cart, wishlist and
view-history tables — no activity signal enters the decision. -/
theorem recommendations_route_demographic (uid : String) (lim : Nat) (db : DB) (u : User)
    (h : db.users.find? (fun x => x.id == uid) = some u)
    (c : List CartRow) (w : List WishlistRow) (v : List ViewedRow) :
    recommendationsRoute uid lim { db with cart := c, wishlist := w, viewedProducts := v }
      = some (getRecommendedProducts u.age u.gender lim db) := by
  unfold recommendationsRoute
  rw [show ({ db with cart := c, wishlist := w, viewedProducts := v } : DB).users
      = db.users from rfl, h]
  rfl

/-- C9, witness: the theorem applied to a stored 30-year-old user with
gender `"Female"` and arbitrary concrete activity tables. -/
theorem recommendations_route_demographic_witness :
    recommendationsRoute "u1" 20
        { dbUser with cart := [{ id := "c1", userId := "u1", productId := "P0",
                                 quantity := 1, addedAt := none }],
                      wishlist := [], viewedProducts := [] }
      = some (getRecommendedProducts 30 "Female" 20 dbUser) := by
  have h := recommendations_route_demographic "u1" 20 dbUser sampleUser (by decide)
    [{ id := "c1", userId := "u1", productId := "P0", quantity := 1, addedAt := none }] [] []
  simpa using h

/-! ### Claim C10 — failure atomicity of ledger writes -/

/-- C10, counterexample: `RecordView` issues a `DELETE` and then an
`INSERT` with no surrounding transaction.  When the delete commits and
the insert then raises, the operation reports failure but the state has
changed: the pair's previous view row is gone. -/
theorem addViewedProduct_failure_cex :
    (addViewedProductF false true "u" "p" "v2" 5 dbView).2 = true
    ∧ (addViewedProductF false true "u" "p" "v2" 5 dbView).1 ≠ dbView :=
  ⟨by decide, by decide⟩

/-- C10, amended: every Activity Ledger write except `RecordView` leaves
the state unchanged whenever it fails, because its only mutating
statement is the last one it runs.  For `RecordView`, a failing `DELETE`
leaves the state unchanged, but an `INSERT` failing after the `DELETE`
leaves the cleaned table — the prior view row is lost. -/
theorem ledger_failure_atomicity (f1 f2 : Bool) (item : InsertCart) (witem : InsertWishlist)
    (u p newId : String) (now : Nat) (q : Int) (db : DB) :
    ((addToCartF f1 f2 item newId now db).2 = true → (addToCartF f1 f2 item newId now db).1 = db)
    ∧ ((updateCartQuantityF f1 u p q db).2 = true → (updateCartQuantityF f1 u p q db).1 = db)
    ∧ ((removeFromCartF f1 u p db).2 = true → (removeFromCartF f1 u p db).1 = db)
    ∧ ((addToWishlistF f1 f2 witem newId now db).2 = true
        → (addToWishlistF f1 f2 witem newId now db).1 = db)
    ∧ ((removeFromWishlistF f1 u p db).2 = true → (removeFromWishlistF f1 u p db).1 = db)
    ∧ (addViewedProductF true f2 u p newId now db).1 = db
    ∧ (addViewedProductF false true u p newId now db).1
        = { db with viewedProducts :=
              db.viewedProducts.filter (fun r => !(r.userId == u && r.productId == p)) } := by
  refine ⟨?_, ?_, ?_, ?_, ?_, ?_, ?_⟩
  · intro he
    cases f1 <;> cases f2 <;> simp_all [addToCartF]
  · intro he
    cases f1 <;> simp_all [updateCartQuantityF]
  · intro he
    cases f1 <;> simp_all [removeFromCartF]
  · intro he
    cases f1 <;> cases f2 <;>
      rcases hw : wishRowsFor witem.userId witem.productId db with _ | ⟨e, rest⟩ <;>
      simp_all [addToWishlistF]
  · intro he
    cases f1 <;> simp_all [removeFromWishlistF]
  · simp [addViewedProductF]
  · simp [addViewedProductF]

/-- C10, witness: all five safe operations applied with a failing first
statement leave the empty database unchanged. -/
theorem ledger_failure_atomicity_witness :
    (addToCartF true false { userId := "u", productId := "p", quantity := none }
        "c" 0 emptyDB).1 = emptyDB
    ∧ (updateCartQuantityF true "u" "p" 1 emptyDB).1 = emptyDB
    ∧ (removeFromCartF true "u" "p" emptyDB).1 = emptyDB
    ∧ (addToWishlistF true false ⟨"u", "p"⟩ "w" 0 emptyDB).1 = emptyDB
    ∧ (removeFromWishlistF true "u" "p" emptyDB).1 = emptyDB := by
  obtain ⟨h1, h2, h3, h4, h5, _, _⟩ := ledger_failure_atomicity true false
    { userId := "u", productId := "p", quantity := none } ⟨"u", "p"⟩ "u" "p" "c" 0 1 emptyDB
  exact ⟨h1 (by decide), h2 (by decide), h3 (by decide), h4 (by decide), h5 (by decide)⟩

/-! ### Consistency of the failure-aware operations with the plain ones -/

theorem addToCartF_ok (item : InsertCart) (newId : String) (now : Nat) (db : DB) :
    addToCartF false false item newId now db = ((addToCart item newId now db).2, false) := rfl

theorem updateCartQuantityF_ok (u p : String) (q : Int) (db : DB) :
    updateCartQuantityF false u p q db = (updateCartQuantity u p q db, false) := rfl

theorem removeFromCartF_ok (u p : String) (db : DB) :
    removeFromCartF false u p db = (removeFromCart u p db, false) := rfl

theorem addToWishlistF_ok (item : InsertWishlist) (newId : String) (now : Nat) (db : DB) :
    addToWishlistF false false item newId now db = ((addToWishlist item newId now db).2, false) := by
  unfold addToWishlistF addToWishlist
  rcases hw : wishRowsFor item.userId item.productId db with _ | ⟨e, rest⟩ <;> simp [hw]

theorem removeFromWishlistF_ok (u p : String) (db : DB) :
    removeFromWishlistF false u p db = (removeFromWishlist u p db, false) := rfl

theorem addViewedProductF_ok (u p newId : String) (now : Nat) (db : DB) :
    addViewedProductF false false u p newId now db
      = ((addViewedProduct u p newId now db).2, false) := rfl

end Eco
